import Mathlib

/-
Shallow embedding of the bimg image-resizing library (resize.go, vips.go).

Modelling conventions:
- Go `float64` arithmetic is modelled over ℚ (the source only divides,
  multiplies, floors, and takes min/max of values derived from integer
  image dimensions).
- Go `int` is modelled as ℤ; Go integer division and remainder truncate
  toward zero, which is `Int.tdiv` / `Int.tmod`.
- Go runtime panics (index out of range) are modelled as `Option.none`.
- Calls into libvips that produce raster handles are not modelled; instead
  the functions return a description of the operation (and its numeric
  arguments) that would be invoked, which is all the claims speak about.
-/

namespace Bimg

/-- Modelled from the spec: the `Gravity` enum (its constant declarations
live in a repository file that is not under src/); the spec says gravity is
"one enum of {center, north, east, south, west} controlling crop anchor". -/
inductive Gravity where
| centre
| north
| east
| south
| west
deriving DecidableEq

/-- Modelled from the spec: the `ImageType` enum constants (UNKNOWN, JPEG,
PNG, WEBP, TIFF, MAGICK) referenced by vips.go but declared in a repository
file that is not under src/. -/
inductive ImageType where
| UNKNOWN
| JPEG
| PNG
| WEBP
| TIFF
| MAGICK
deriving DecidableEq

/-- Modelled from the spec: an interpolator is "a named resampling kernel
with an associated window size"; the C function `interpolator_window_size`
wrapped by `vipsWindowSize` (vips.go:137-141) is not under src/, so an
interpolator is modelled by the window size it reports. -/
structure Interpolator where
  windowSize : ℚ
deriving DecidableEq

/-- vips.go:137-141 — reports the interpolator's kernel window size. -/
def vipsWindowSize (i : Interpolator) : ℚ :=
  i.windowSize

/-- The fields of the Go `Options` struct used by the resize pipeline
(the struct declaration itself lives in a repository file not under src/;
the fields and their zero values are taken from their uses in resize.go). -/
structure Options where
  Width : Int
  Height : Int
  Top : Int
  Left : Int
  AreaWidth : Int
  AreaHeight : Int
  Extend : Int
  Rotate : Int
  Crop : Bool
  Embed : Bool
  Enlarge : Bool
  Force : Bool
  Gravity : Gravity
  Interpolator : Interpolator
deriving DecidableEq

/-- The Go zero value of `Options` (window size 2 is an arbitrary
interpolator stand-in; no claim depends on it). -/
def baseOptions : Options :=
  { Width := 0, Height := 0, Top := 0, Left := 0, AreaWidth := 0,
    AreaHeight := 0, Extend := 0, Rotate := 0, Crop := false,
    Embed := false, Enlarge := false, Force := false,
    Gravity := Gravity.centre, Interpolator := { windowSize := 2 } }

/-- resize.go:138-142 — `normalizeOperation`: implicitly force the resize
when no mode flag, no enlarge and no rotation was requested but a width or
height was given.  The two dimension parameters are unused in the source. -/
def normalizeOperation (o : Options) (inWidth inHeight : Int) : Options :=
  if o.Force = false ∧ o.Crop = false ∧ o.Embed = false ∧
     o.Enlarge = false ∧ o.Rotate = 0 ∧ (0 < o.Width ∨ 0 < o.Height) then
    { o with Force := true }
  else
    o

/-- resize.go:359-388 — `imageCalculations`: derive the scale factor from
the input and requested dimensions, resolving the unset dimension (or both)
when only one (or neither) was given. -/
def imageCalculations (o : Options) (inWidth inHeight : Int) : Options × ℚ :=
  let xfactor : ℚ := (inWidth : ℚ) / (o.Width : ℚ)
  let yfactor : ℚ := (inHeight : ℚ) / (o.Height : ℚ)
  if 0 < o.Width ∧ 0 < o.Height then
    (o, if o.Crop then min xfactor yfactor else max xfactor yfactor)
  else if 0 < o.Width then
    ({ o with Height := ⌊(inHeight : ℚ) / xfactor⌋ }, xfactor)
  else if 0 < o.Height then
    ({ o with Width := ⌊(inWidth : ℚ) / yfactor⌋ }, yfactor)
  else
    ({ o with Width := inWidth, Height := inHeight }, 1)

/-- resize.go:450-463 — `calculateShrink`: integral box shrink, using a
smaller shrink (more affine work) for interpolators with a window wider
than 3 pixels once the factor reaches 2; clamped to at least 1. -/
def calculateShrink (factor : ℚ) (i : Interpolator) : Int :=
  let windowSize := vipsWindowSize i
  if 2 ≤ factor ∧ 3 < windowSize then
    max ⌊factor * 3 / windowSize⌋ 1
  else
    max ⌊factor⌋ 1

/-- resize.go:465-467 — `calculateResidual`: fractional scale remaining
after the integral shrink. -/
def calculateResidual (factor : ℚ) (shrink : Int) : ℚ :=
  (shrink : ℚ) / factor

/-- resize.go:390-410 — `calculateCrop`: gravity-anchored offsets for
extracting an `outWidth × outHeight` window.  Go integer division
truncates toward zero (`Int.tdiv`). -/
def calculateCrop (inWidth inHeight outWidth outHeight : Int)
    (gravity : Gravity) : Int × Int :=
  match gravity with
  | Gravity.north => (Int.tdiv (inWidth - outWidth + 1) 2, 0)
  | Gravity.east => (inWidth - outWidth, Int.tdiv (inHeight - outHeight + 1) 2)
  | Gravity.south => (Int.tdiv (inWidth - outWidth + 1) 2, inHeight - outHeight)
  | Gravity.west => (0, Int.tdiv (inHeight - outHeight + 1) 2)
  | Gravity.centre =>
    (Int.tdiv (inWidth - outWidth + 1) 2, Int.tdiv (inHeight - outHeight + 1) 2)

/-- The raster operation selected by `extractOrEmbedImage`, with the exact
numeric arguments that would be passed to vipsExtract / vipsEmbed. -/
inductive ExtractAction where
| extract (left top width height : Int)
| embed (left top width height extend : Int)
| noop
deriving DecidableEq

/-- resize.go:209-241 — `extractOrEmbedImage`: crop takes precedence, then
embed, then an explicit left/top region.  The explicit-region branch is
transcribed exactly as written in the source, including the assignment
`o.AreaHeight = o.Width` performed under the test `o.AreaWidth == 0`
(resize.go:227-229). -/
def extractOrEmbedImage (o : Options) (inWidth inHeight : Int) :
    Except String ExtractAction :=
  if o.Crop = true then
    let width := min inWidth o.Width
    let height := min inHeight o.Height
    let lt := calculateCrop inWidth inHeight o.Width o.Height o.Gravity
    Except.ok (ExtractAction.extract (max lt.1 0) (max lt.2 0) width height)
  else if o.Embed = true then
    Except.ok (ExtractAction.embed (Int.tdiv (o.Width - inWidth) 2)
      (Int.tdiv (o.Height - inHeight) 2) o.Width o.Height o.Extend)
  else if 0 < o.Top ∨ 0 < o.Left then
    let o1 := if o.AreaWidth = 0 then { o with AreaHeight := o.Width } else o
    let o2 := if o1.AreaHeight = 0 then { o1 with AreaHeight := o1.Height } else o1
    if o2.AreaWidth = 0 ∨ o2.AreaHeight = 0 then
      Except.error "Extract area width/height params are required"
    else
      Except.ok (ExtractAction.extract o2.Left o2.Top o2.AreaWidth o2.AreaHeight)
  else
    Except.ok ExtractAction.noop

deriving instance DecidableEq for Except

/-- resize.go:412-448 — `calculateRotationAndFlip`: an explicit requested
angle (> 0) skips auto-orientation; otherwise the embedded EXIF orientation
value (read by `vipsExifOrientation`, modelled as the second argument) is
mapped to a rotation angle and flip flag. -/
def calculateRotationAndFlip (angle exifOrientation : Int) : Int × Bool :=
  if 0 < angle then (0, false)
  else if exifOrientation = 6 then (90, false)
  else if exifOrientation = 3 then (180, false)
  else if exifOrientation = 8 then (270, false)
  else if exifOrientation = 2 then (0, true)
  else if exifOrientation = 7 then (90, true)
  else if exifOrientation = 4 then (180, true)
  else if exifOrientation = 5 then (270, true)
  else (0, false)

/-- resize.go:469-475 — `getAngle`: drop the remainder modulo 90, then cap
at 270.  Go `%` truncates toward zero (`Int.tmod`). -/
def getAngle (angle : Int) : Int :=
  let d := Int.tmod angle 90
  let a := if d ≠ 0 then angle - d else angle
  min a 270

/-- resize.go:333-357 — `shrinkJpegImage`: the factor/shrink-on-load
arithmetic of the JPEG shrink-on-load fast path.  Returns the recomputed
factor and the chosen decoder shrink level. -/
def shrinkJpegImage (factor : ℚ) (shrink : Int) : ℚ × Int :=
  if 8 ≤ shrink then (factor / 8, 8)
  else if 4 ≤ shrink then (factor / 4, 4)
  else if 2 ≤ shrink then (factor / 2, 2)
  else (factor, 1)

/-- resize.go:58-69 — the state recomputed by `Resize` after the JPEG
shrink-on-load fast path: the new factor (floored at 1.0), the new integral
shrink and the new residual. -/
def jpegPreShrink (factor : ℚ) (shrink : Int) : ℚ × Int × ℚ :=
  let p := shrinkJpegImage factor shrink
  let f := max p.1 1
  let s := ⌊f⌋
  (f, s, (s : ℚ) / f)

/-- The planning state (options, factor, shrink, residual) computed by
`Resize` before any raster operation is invoked. -/
structure ResizePlan where
  opts : Options
  factor : ℚ
  shrink : Int
  residual : ℚ
deriving DecidableEq

/-- resize.go:39-56 — the planning prefix of `Resize`: mode normalization,
geometry calculations, shrink/residual derivation, then the no-enlarge
guard. -/
def resizePlan (o : Options) (inWidth inHeight : Int) : ResizePlan :=
  let o1 := normalizeOperation o inWidth inHeight
  let p := imageCalculations o1 inWidth inHeight
  let o2 := p.1
  let factor := p.2
  let shrink := calculateShrink factor o2.Interpolator
  let residual := calculateResidual factor shrink
  if o2.Enlarge = false ∧ o2.Force = false ∧
     inWidth < o2.Width ∧ inHeight < o2.Height then
    ⟨{ o2 with Width := inWidth, Height := inHeight }, 1, 1, 0⟩
  else
    ⟨o2, factor, shrink, residual⟩

/-- The single geometry mode that drives the transform step, by the
precedence the source implements: `Force` disables crop and embed
(resize.go:177-180) and the switch in `extractOrEmbedImage` tests crop
before embed (resize.go:214-225). -/
inductive GeometryMode where
| force
| crop
| embed
| noneEff
deriving DecidableEq

/-- The effective geometry mode of an options value, per the precedence
force > crop > embed implemented by `transformImage` and
`extractOrEmbedImage`. -/
def effectiveMode (o : Options) : GeometryMode :=
  if o.Force = true then GeometryMode.force
  else if o.Crop = true then GeometryMode.crop
  else if o.Embed = true then GeometryMode.embed
  else GeometryMode.noneEff

/-- Short-circuit conjunction of byte-equality tests, as Go's `&&` over
`bytes[i] == v` conditions: an out-of-range index is a runtime panic
(`none`); a failed comparison stops the evaluation with `some false`. -/
def sigCheck (bytes : List Nat) : List (Nat × Nat) → Option Bool
  | [] => some true
  | (i, v) :: rest =>
    match bytes.get? i with
    | none => none
    | some b => if b = v then sigCheck bytes rest else some false

/-- vips.go:389-412 — `vipsImageType`: magic-byte format sniffing, in
source order (PNG, JPEG, WEBP, the two TIFF signatures, then Magick).
The Magick branch condition (`HasMagickSupport` and the C loader lookup)
is an opaque boolean parameter `magick`; it inspects no individual byte. -/
def vipsImageType (magick : Bool) (bytes : List Nat) : Option ImageType :=
  if bytes.length = 0 then some ImageType.UNKNOWN
  else
    match sigCheck bytes [(0, 0x89), (1, 0x50), (2, 0x4E), (3, 0x47)] with
    | none => none
    | some true => some ImageType.PNG
    | some false =>
      match sigCheck bytes [(0, 0xFF), (1, 0xD8), (2, 0xFF)] with
      | none => none
      | some true => some ImageType.JPEG
      | some false =>
        match sigCheck bytes [(8, 0x57), (9, 0x45), (10, 0x42), (11, 0x50)] with
        | none => none
        | some true => some ImageType.WEBP
        | some false =>
          match sigCheck bytes [(0, 0x49), (1, 0x49), (2, 0x2A), (3, 0x00)] with
          | none => none
          | some true => some ImageType.TIFF
          | some false =>
            match sigCheck bytes [(0, 0x4D), (1, 0x4D), (2, 0x00), (3, 0x2A)] with
            | none => none
            | some true => some ImageType.TIFF
            | some false =>
              if magick then some ImageType.MAGICK else some ImageType.UNKNOWN

/-- vips.go:210-227 — the format-detection outcome of `vipsRead` (reached
from `Resize` for every non-empty buffer): a panic inside `vipsImageType`
propagates (`none`); an UNKNOWN detection yields the unsupported-format
error; otherwise decoding proceeds with the detected type. -/
def vipsReadFormat (magick : Bool) (bytes : List Nat) :
    Option (Except String ImageType) :=
  match vipsImageType magick bytes with
  | none => none
  | some ImageType.UNKNOWN => some (Except.error "Unsupported image format")
  | some t => some (Except.ok t)

/-- The concrete options of the C1 example: 400×400 requested, every flag
false (the Go zero value apart from the dimensions). -/
def c1Options : Options :=
  { baseOptions with Width := 400, Height := 400 }

/-- C1's scenario amended with `Crop := true`, so that mode normalization
leaves `Force` false. -/
def c1CropOptions : Options :=
  { baseOptions with Width := 400, Height := 400, Crop := true }

/-- An explicit-region request whose area width is unset: Top=10,
AreaWidth=0, AreaHeight=5, target 100×100. -/
def c2Options : Options :=
  { baseOptions with Width := 100, Height := 100, Top := 10, AreaHeight := 5 }

/-- Width given, no mode flag requested, but `Enlarge := true`. -/
def c3Options : Options :=
  { baseOptions with Width := 400, Enlarge := true }

/-- Width given, no mode flag requested, nothing else set. -/
def c3PlainOptions : Options :=
  { baseOptions with Width := 400 }

/-- A crop request: 100×100 crop out of a larger image. -/
def c6Options : Options :=
  { baseOptions with Width := 100, Height := 100, Crop := true, Gravity := Gravity.south }

/-- Claim C2 — evaluating the source's explicit-region branch at a request
with Top=10, AreaWidth=0, AreaHeight=5 and target width 100 on a 200×200
image: because resize.go:228 assigns `o.AreaHeight = o.Width` under the
test `o.AreaWidth == 0`, the area width is never defaulted from the target
width and the fatal error is returned even though the target width (100)
could resolve it, contradicting the documented defaulting rule. -/
theorem extractOrEmbed_area_defaults_failing :
    extractOrEmbedImage c2Options 200 200 =
      Except.error "Extract area width/height params are required" ∧
    c2Options.Width = 100 ∧ c2Options.AreaWidth = 0 ∧
    c2Options.AreaHeight = 5 ∧ 0 < c2Options.Top := by
  decide

/-- Claim C5: `calculateShrink` returns `max ⌊factor*3/windowSize⌋ 1` when
`factor ≥ 2` and the interpolator's window size exceeds 3, and
`max ⌊factor⌋ 1` otherwise; the result is always at least 1; in particular
it is 1 at factor 1 for every interpolator and 6 at factor 8 with window
size 4. -/
theorem calculateShrink_spec (factor : ℚ) (i : Interpolator) :
    (2 ≤ factor → 3 < vipsWindowSize i →
      calculateShrink factor i = max ⌊factor * 3 / vipsWindowSize i⌋ 1) ∧
    (¬(2 ≤ factor ∧ 3 < vipsWindowSize i) →
      calculateShrink factor i = max ⌊factor⌋ 1) ∧
    1 ≤ calculateShrink factor i ∧
    calculateShrink 1 i = 1 ∧
    (vipsWindowSize i = 4 → calculateShrink 8 i = 6) := by
  refine ⟨?_, ?_, ?_, ?_, ?_⟩
  · intro h1 h2
    simp only [calculateShrink]
    rw [if_pos ⟨h1, h2⟩]
  · intro h
    simp only [calculateShrink]
    rw [if_neg h]
  · simp only [calculateShrink]
    split_ifs <;> exact le_max_right _ 1
  · have h : ¬((2 : ℚ) ≤ 1 ∧ 3 < vipsWindowSize i) := by
      rintro ⟨h2, -⟩
      norm_num at h2
    simp only [calculateShrink]
    rw [if_neg h]
    norm_num
  · intro h4
    simp only [calculateShrink, h4]
    rw [if_pos ⟨by norm_num, by norm_num⟩]
    norm_num

/-- Claim C5 witness: factor 8 with a window-size-4 interpolator gives
shrink 6. -/
theorem calculateShrink_spec_witness :
    calculateShrink 8 { windowSize := 4 } = 6 :=
  (calculateShrink_spec 8 { windowSize := 4 }).2.2.2.2 rfl

/-- Claim C7: for non-negative angles, `getAngle` rounds down to the
nearest lower multiple of 90 and caps the result at 270; every angle
≥ 270 yields exactly 270; `getAngle 370 = 270`, `getAngle 45 = 0`,
`getAngle 180 = 180`. -/
theorem getAngle_spec (a : Int) :
    (0 ≤ a → getAngle a = min (90 * Int.tdiv a 90) 270) ∧
    (270 ≤ a → getAngle a = 270) ∧
    getAngle 370 = 270 ∧ getAngle 45 = 0 ∧ getAngle 180 = 180 := by
  have hbase : getAngle a = min (a - Int.tmod a 90) 270 := by
    simp only [getAngle]
    split_ifs with h
    · rfl
    · simp only [ne_eq, not_not] at h
      rw [h, sub_zero]
  have hkey : a - Int.tmod a 90 = 90 * Int.tdiv a 90 := by
    have h := Int.tmod_add_tdiv a 90
    omega
  refine ⟨?_, ?_, by decide, by decide, by decide⟩
  · intro _
    rw [hbase, hkey]
  · intro h270
    rw [hbase, hkey]
    have he : Int.tdiv a 90 = a / 90 :=
      Int.tdiv_eq_ediv (by omega) (by omega)
    rw [he]
    have h3 : 3 ≤ a / 90 := by omega
    have : (270 : Int) ≤ 90 * (a / 90) := by omega
    omega

/-- Claim C7 witness: `getAngle 370` through the general statement. -/
theorem getAngle_spec_witness :
    getAngle 370 = min (90 * Int.tdiv 370 90) 270 :=
  (getAngle_spec 370).1 (by decide)

/-- Claim C8: `calculateRotationAndFlip` skips auto-orientation when the
requested angle is positive, and otherwise maps the EXIF orientation value
6→(90,false), 3→(180,false), 8→(270,false), 2→(0,true), 7→(90,true),
4→(180,true), 5→(270,true), with every other value giving (0,false). -/
theorem calculateRotationAndFlip_spec (a e : Int) :
    (0 < a → calculateRotationAndFlip a e = (0, false)) ∧
    (a ≤ 0 →
      calculateRotationAndFlip a 6 = (90, false) ∧
      calculateRotationAndFlip a 3 = (180, false) ∧
      calculateRotationAndFlip a 8 = (270, false) ∧
      calculateRotationAndFlip a 2 = (0, true) ∧
      calculateRotationAndFlip a 7 = (90, true) ∧
      calculateRotationAndFlip a 4 = (180, true) ∧
      calculateRotationAndFlip a 5 = (270, true) ∧
      (e ∉ ([2, 3, 4, 5, 6, 7, 8] : List Int) →
        calculateRotationAndFlip a e = (0, false))) := by
  constructor
  · intro h
    simp [calculateRotationAndFlip, h]
  · intro h
    have h0 : ¬(0 < a) := by omega
    refine ⟨?_, ?_, ?_, ?_, ?_, ?_, ?_, ?_⟩
    · simp [calculateRotationAndFlip, h0]
    · simp [calculateRotationAndFlip, h0]
    · simp [calculateRotationAndFlip, h0]
    · simp [calculateRotationAndFlip, h0]
    · simp [calculateRotationAndFlip, h0]
    · simp [calculateRotationAndFlip, h0]
    · simp [calculateRotationAndFlip, h0]
    · intro he
      simp only [List.mem_cons, List.not_mem_nil, or_false, not_or] at he
      obtain ⟨h2, h3, h4, h5, h6, h7, h8⟩ := he
      simp [calculateRotationAndFlip, h0, h2, h3, h4, h5, h6, h7, h8]

/-- Claim C8 witness: EXIF orientation 6 with no explicit angle maps to a
90-degree rotation and no flip. -/
theorem calculateRotationAndFlip_spec_witness :
    calculateRotationAndFlip 0 6 = (90, false) :=
  ((calculateRotationAndFlip_spec 0 6).2 (by decide)).1

/-- Claim C1 — counterexample: in the claim's own example (100×100 input,
width=400, height=400, enlarge=false, force=false as supplied, no other
flag set), `normalizeOperation` runs before the no-enlarge guard and sets
`Force := true` (resize.go:39 vs resize.go:48), so the guard does not fire:
the planned options keep width/height 400 with force set and the factor is
1/4, not 1 — the output is upscaled, contradicting the claim. -/
theorem no_enlarge_guard_counterexample :
    c1Options.Enlarge = false ∧ c1Options.Force = false ∧
    (100 : Int) < c1Options.Width ∧ (100 : Int) < c1Options.Height ∧
    (resizePlan c1Options 100 100).opts.Width = 400 ∧
    (resizePlan c1Options 100 100).opts.Height = 400 ∧
    (resizePlan c1Options 100 100).opts.Force = true ∧
    (resizePlan c1Options 100 100).factor ≠ 1 := by
  refine ⟨rfl, rfl, by decide, by decide, ?_, ?_, ?_, ?_⟩ <;>
    norm_num [resizePlan, normalizeOperation, imageCalculations,
      calculateShrink, calculateResidual, vipsWindowSize, c1Options,
      baseOptions]

/-- Claim C1 (amended): when enlarge=false and force=false as supplied and
the caller also requested crop, embed or a rotation — so that
mode-normalization leaves force unset — and both input dimensions are
strictly smaller than the requested width and height, the no-enlarge guard
fires: factor=1, shrink=1, residual=0 and the options width/height are set
to the input dimensions. -/
theorem no_enlarge_guard_amended (o : Options) (inW inH : Int)
    (hW : 0 < inW) (hH : 0 < inH)
    (hE : o.Enlarge = false) (hF : o.Force = false)
    (hmode : o.Crop = true ∨ o.Embed = true ∨ o.Rotate ≠ 0)
    (hw : inW < o.Width) (hh : inH < o.Height) :
    resizePlan o inW inH =
      ⟨{ o with Width := inW, Height := inH }, 1, 1, 0⟩ := by
  have hnorm : normalizeOperation o inW inH = o := by
    simp only [normalizeOperation]
    rw [if_neg]
    rintro ⟨-, hC, hEm, -, hR, -⟩
    rcases hmode with h | h | h
    · rw [h] at hC; cases hC
    · rw [h] at hEm; cases hEm
    · exact h hR
  have hWpos : 0 < o.Width := by omega
  have hHpos : 0 < o.Height := by omega
  have himg1 : (imageCalculations o inW inH).1 = o := by
    simp only [imageCalculations]
    rw [if_pos ⟨hWpos, hHpos⟩]
  simp only [resizePlan, hnorm, himg1]
  rw [if_pos ⟨hE, hF, hw, hh⟩]

/-- Claim C1 witness: a crop request (so normalization leaves force unset)
for 400×400 on a 100×100 input leaves the input untouched. -/
theorem no_enlarge_guard_amended_witness :
    resizePlan c1CropOptions 100 100 =
      ⟨{ c1CropOptions with Width := 100, Height := 100 }, 1, 1, 0⟩ :=
  no_enlarge_guard_amended c1CropOptions 100 100 (by decide) (by decide)
    rfl rfl (Or.inl rfl) (by decide) (by decide)

/-- Claim C3 — counterexample: with width=400 given, none of force, crop
or embed requested, but enlarge=true, `normalizeOperation` does not set
force (its condition also requires enlarge to be unset, resize.go:139),
so none of the three modes is effective after normalization. -/
theorem normalize_mode_counterexample :
    (0 : Int) < c3Options.Width ∧ c3Options.Force = false ∧
    c3Options.Crop = false ∧ c3Options.Embed = false ∧
    (normalizeOperation c3Options 100 100).Force = false ∧
    effectiveMode (normalizeOperation c3Options 100 100) =
      GeometryMode.noneEff := by
  decide

/-- Claim C3 (amended): after mode-normalization, for every options value
with a width or height given in which additionally enlarge is unset and no
rotation was requested, exactly one of {force, crop, embed} is effective
(by the precedence force > crop > embed the transform implements), and if
the caller requested none of the three then force is implicitly set. -/
theorem normalize_mode_amended (o : Options) (inW inH : Int)
    (hE : o.Enlarge = false) (hR : o.Rotate = 0)
    (hwh : 0 < o.Width ∨ 0 < o.Height) :
    effectiveMode (normalizeOperation o inW inH) ≠ GeometryMode.noneEff ∧
    (o.Force = false → o.Crop = false → o.Embed = false →
      (normalizeOperation o inW inH).Force = true ∧
      (normalizeOperation o inW inH).Crop = false ∧
      (normalizeOperation o inW inH).Embed = false) := by
  constructor
  · cases hF : o.Force with
    | true =>
      simp [normalizeOperation, effectiveMode, hF]
    | false =>
      cases hC : o.Crop with
      | true =>
        simp [normalizeOperation, effectiveMode, hF, hC]
      | false =>
        cases hEm : o.Embed with
        | true =>
          simp [normalizeOperation, effectiveMode, hF, hC, hEm]
        | false =>
          simp [normalizeOperation, effectiveMode, hF, hC, hEm, hE, hR, hwh]
  · intro hF hC hEm
    simp [normalizeOperation, hF, hC, hEm, hE, hR, hwh]

/-- Claim C3 witness: width given, nothing else requested — force is
implicitly set, so the effective mode is not empty. -/
theorem normalize_mode_amended_witness :
    effectiveMode (normalizeOperation c3PlainOptions 100 100) ≠
      GeometryMode.noneEff :=
  (normalize_mode_amended c3PlainOptions 100 100 rfl rfl
    (Or.inl (by decide))).1

/-- Claim C4: `imageCalculations` returns min/max of the two axis ratios
(min when cropping) leaving the options unchanged when both dimensions are
positive; resolves the missing dimension by flooring when only one is
positive; and is the identity (factor 1, dimensions copied from the input)
when neither is. -/
theorem imageCalculations_spec (o : Options) (inW inH : Int) :
    (0 < o.Width → 0 < o.Height →
      imageCalculations o inW inH =
        (o, if o.Crop = true then
              min ((inW : ℚ) / (o.Width : ℚ)) ((inH : ℚ) / (o.Height : ℚ))
            else
              max ((inW : ℚ) / (o.Width : ℚ)) ((inH : ℚ) / (o.Height : ℚ)))) ∧
    (0 < o.Width → o.Height ≤ 0 →
      imageCalculations o inW inH =
        ({ o with Height := ⌊(inH : ℚ) / ((inW : ℚ) / (o.Width : ℚ))⌋ },
          (inW : ℚ) / (o.Width : ℚ))) ∧
    (o.Width ≤ 0 → 0 < o.Height →
      imageCalculations o inW inH =
        ({ o with Width := ⌊(inW : ℚ) / ((inH : ℚ) / (o.Height : ℚ))⌋ },
          (inH : ℚ) / (o.Height : ℚ))) ∧
    (o.Width ≤ 0 → o.Height ≤ 0 →
      imageCalculations o inW inH =
        ({ o with Width := inW, Height := inH }, 1)) := by
  refine ⟨?_, ?_, ?_, ?_⟩ <;> intro h1 h2 <;> simp only [imageCalculations]
  · rw [if_pos ⟨h1, h2⟩]
  · rw [if_neg (by omega), if_pos h1]
  · rw [if_neg (by omega), if_neg (by omega), if_pos h2]
  · rw [if_neg (by omega), if_neg (by omega), if_neg (by omega)]

/-- Claim C4 witness: both dimensions positive (400×400 requested, no
crop) on a 100×100 input. -/
theorem imageCalculations_spec_witness :
    imageCalculations c1Options 100 100 =
      (c1Options,
        if c1Options.Crop = true then
          min ((100 : ℚ) / (c1Options.Width : ℚ))
            ((100 : ℚ) / (c1Options.Height : ℚ))
        else
          max ((100 : ℚ) / (c1Options.Width : ℚ))
            ((100 : ℚ) / (c1Options.Height : ℚ))) :=
  (imageCalculations_spec c1Options 100 100).1 (by decide) (by decide)

/-- Claim C6: `calculateCrop` returns the gravity-anchored offsets of the
table (north, east, south, west, centre/default), and the crop branch of
`extractOrEmbedImage` clamps those offsets at 0 and extracts a
`min(inW,outW) × min(inH,outH)` window. -/
theorem calculateCrop_spec (inW inH outW outH : Int) (o : Options) :
    calculateCrop inW inH outW outH Gravity.north =
      (Int.tdiv (inW - outW + 1) 2, 0) ∧
    calculateCrop inW inH outW outH Gravity.east =
      (inW - outW, Int.tdiv (inH - outH + 1) 2) ∧
    calculateCrop inW inH outW outH Gravity.south =
      (Int.tdiv (inW - outW + 1) 2, inH - outH) ∧
    calculateCrop inW inH outW outH Gravity.west =
      (0, Int.tdiv (inH - outH + 1) 2) ∧
    calculateCrop inW inH outW outH Gravity.centre =
      (Int.tdiv (inW - outW + 1) 2, Int.tdiv (inH - outH + 1) 2) ∧
    (o.Crop = true →
      extractOrEmbedImage o inW inH =
        Except.ok (ExtractAction.extract
          (max (calculateCrop inW inH o.Width o.Height o.Gravity).1 0)
          (max (calculateCrop inW inH o.Width o.Height o.Gravity).2 0)
          (min inW o.Width) (min inH o.Height))) := by
  refine ⟨rfl, rfl, rfl, rfl, rfl, ?_⟩
  intro hc
  simp [extractOrEmbedImage, hc]

/-- Claim C6 witness: a south-gravity 100×100 crop of a 300×200 raster. -/
theorem calculateCrop_spec_witness :
    extractOrEmbedImage c6Options 300 200 =
      Except.ok (ExtractAction.extract
        (max (calculateCrop 300 200 c6Options.Width c6Options.Height
          c6Options.Gravity).1 0)
        (max (calculateCrop 300 200 c6Options.Width c6Options.Height
          c6Options.Gravity).2 0)
        (min 300 c6Options.Width) (min 200 c6Options.Height)) :=
  (calculateCrop_spec 300 200 0 0 c6Options).2.2.2.2.2 rfl

/-- Claim C9: with shrink ≥ 2, the JPEG fast path picks the largest level
of {2,4,8} not exceeding shrink, divides the factor by it, and the caller
recomputes the factor (floored at 1), the shrink (floor of the new factor)
and the residual (shrink divided by the new factor). -/
theorem shrinkJpeg_spec (factor : ℚ) (shrink : Int) (h2 : 2 ≤ shrink) :
    ((shrinkJpegImage factor shrink).2 = 2 ∨
      (shrinkJpegImage factor shrink).2 = 4 ∨
      (shrinkJpegImage factor shrink).2 = 8) ∧
    (shrinkJpegImage factor shrink).2 ≤ shrink ∧
    ((4 : Int) ≤ shrink → 4 ≤ (shrinkJpegImage factor shrink).2) ∧
    ((8 : Int) ≤ shrink → 8 ≤ (shrinkJpegImage factor shrink).2) ∧
    (shrinkJpegImage factor shrink).1 =
      factor / (((shrinkJpegImage factor shrink).2 : Int) : ℚ) ∧
    jpegPreShrink factor shrink =
      (max (shrinkJpegImage factor shrink).1 1,
        ⌊max (shrinkJpegImage factor shrink).1 1⌋,
        (⌊max (shrinkJpegImage factor shrink).1 1⌋ : ℚ) /
          max (shrinkJpegImage factor shrink).1 1) := by
  refine ⟨?_, ?_, ?_, ?_, ?_, rfl⟩ <;>
    simp only [shrinkJpegImage] <;> split_ifs <;>
    first
      | omega
      | norm_num

/-- Claim C9 witness: shrink 8 halves nothing — level 8 is chosen and the
factor is divided by 8. -/
theorem shrinkJpeg_spec_witness :
    (shrinkJpegImage 8 8).1 =
      8 / (((shrinkJpegImage 8 8).2 : Int) : ℚ) :=
  (shrinkJpeg_spec 8 8 (by decide)).2.2.2.2.1

/-- Helper: a short-circuit signature check succeeds (with some boolean)
whenever every index it may inspect is inside the buffer. -/
theorem sigCheck_isSome (bytes : List Nat) (checks : List (Nat × Nat))
    (h : ∀ p ∈ checks, p.1 < bytes.length) :
    (sigCheck bytes checks).isSome = true := by
  induction checks with
  | nil => rfl
  | cons p rest ih =>
    obtain ⟨i, v⟩ := p
    have hi : i < bytes.length := h (i, v) (List.mem_cons_self _ _)
    obtain ⟨b, hb⟩ := Option.isSome_iff_exists.mp
      (by rw [List.get?_eq_get hi]; rfl : (bytes.get? i).isSome = true)
    simp only [sigCheck, hb]
    by_cases hbv : b = v
    · rw [if_pos hbv]
      exact ih fun q hq => h q (List.mem_cons_of_mem _ hq)
    · rw [if_neg hbv]
      rfl

/-- Claim C10: `vipsImageType` returns UNKNOWN on the empty buffer and
some type on every buffer of length ≥ 12, but on every 1-byte buffer its
WEBP signature test (or an earlier one) indexes past the end of the buffer
— a runtime panic, modelled as `none` — so `vipsRead` (and hence `Resize`)
panics instead of returning the unsupported-format error there. -/
theorem vipsImageType_partiality_spec (magick : Bool) (b : Nat)
    (bytes : List Nat) :
    vipsImageType magick [b] = none ∧
    vipsReadFormat magick [b] = none ∧
    vipsImageType magick [] = some ImageType.UNKNOWN ∧
    (12 ≤ bytes.length → (vipsImageType magick bytes).isSome = true) := by
  have h1 : vipsImageType magick [b] = none := by
    by_cases h89 : b = 0x89
    · simp [vipsImageType, sigCheck, h89]
    · by_cases hff : b = 0xFF
      · simp [vipsImageType, sigCheck, h89, hff]
      · simp [vipsImageType, sigCheck, h89, hff]
  refine ⟨h1, ?_, rfl, ?_⟩
  · simp only [vipsReadFormat, h1]
  · intro h12
    have hidx : ∀ checks : List (Nat × Nat), (∀ p ∈ checks, p.1 < 12) →
        (sigCheck bytes checks).isSome = true := by
      intro checks hc
      exact sigCheck_isSome bytes checks fun p hp => by
        have := hc p hp
        omega
    have hpng := hidx [(0, 0x89), (1, 0x50), (2, 0x4E), (3, 0x47)]
      (by intro p hp; fin_cases hp <;> norm_num)
    have hjpeg := hidx [(0, 0xFF), (1, 0xD8), (2, 0xFF)]
      (by intro p hp; fin_cases hp <;> norm_num)
    have hwebp := hidx [(8, 0x57), (9, 0x45), (10, 0x42), (11, 0x50)]
      (by intro p hp; fin_cases hp <;> norm_num)
    have htiff1 := hidx [(0, 0x49), (1, 0x49), (2, 0x2A), (3, 0x00)]
      (by intro p hp; fin_cases hp <;> norm_num)
    have htiff2 := hidx [(0, 0x4D), (1, 0x4D), (2, 0x00), (3, 0x2A)]
      (by intro p hp; fin_cases hp <;> norm_num)
    obtain ⟨r1, hr1⟩ := Option.isSome_iff_exists.mp hpng
    obtain ⟨r2, hr2⟩ := Option.isSome_iff_exists.mp hjpeg
    obtain ⟨r3, hr3⟩ := Option.isSome_iff_exists.mp hwebp
    obtain ⟨r4, hr4⟩ := Option.isSome_iff_exists.mp htiff1
    obtain ⟨r5, hr5⟩ := Option.isSome_iff_exists.mp htiff2
    simp only [vipsImageType]
    rw [if_neg (by omega : ¬bytes.length = 0), hr1]
    cases r1
    · rw [hr2]
      cases r2
      · rw [hr3]
        cases r3
        · rw [hr4]
          cases r4
          · rw [hr5]
            cases r5
            · cases magick <;> rfl
            · rfl
          · rfl
        · rfl
      · rfl
    · rfl

/-- Claim C10 witness: a 12-byte buffer is classified without a panic. -/
theorem vipsImageType_partiality_witness :
    (vipsImageType false (List.replicate 12 0)).isSome = true :=
  (vipsImageType_partiality_spec false 0 (List.replicate 12 0)).2.2.2
    (by simp)

end Bimg
